import Mathlib

/-!
Verification of the SDL front-end of the FreeRDP client
(src/client/SDL/sdl_freerdp.c).

The development shallowly embeds the parts of the file that the verified
properties talk about:

* the static exit-code table `sdl_exit_code_map` and its lookup helpers
  (`sdl_map_entry_by_error`, `sdl_map_entry_by_code`,
  `sdl_map_error_to_exit_code`, `sdl_map_to_code_tag`);
* the session state (`sdlContext`): the four WinPR event handles, the abort
  signal, the SDL user-event queue, the window list and the GDI invalid-region
  tracker, with the stateful functions `sdl_client_new`, `sdl_begin_paint`,
  `sdl_end_paint_process`, `sdl_wait_for_init`, `sdl_wait_create_windows`,
  `sdl_create_windows`, `sdl_pre_connect`, `update_resizeable` and
  `update_fullscreen` translated as explicit state-passing functions.

Blocking waits are modelled by an `Option` result: `none` means the wait can
not complete in the current state without an action of the other thread
(the call blocks); `some (rc, s)` means the call returns `rc` leaving state
`s`.  `WaitForMultipleObjects` with `bWaitAll = FALSE` returns the lowest
signaled index, so the first handle of the array is tested first.
-/

/- ------------------------------------------------------------------ -/
/- Protocol-engine error constants.                                    -/
/- ------------------------------------------------------------------ -/

/-- Modelled from the spec: the protocol error codes (`FREERDP_ERROR_*`,
`ERRINFO_*`) are defined in the protocol engine headers, which are outside
src/.  Every claim below depends only on the pairwise distinctness of these
values, which the numbers below (taken from the engine error layout:
class 0 = base, raw `ERRINFO` values, class 2 = connect errors shifted by
16 bits) guarantee. -/
def FREERDP_ERROR_SUCCESS : Nat := 0

def FREERDP_ERROR_NONE : Nat := 1

def ERRINFO_LOGOFF_BY_USER : Nat := 0xC

def FREERDP_ERROR_PRE_CONNECT_FAILED : Nat := 0x20001

def FREERDP_ERROR_CONNECT_UNDEFINED : Nat := 0x20002

def FREERDP_ERROR_POST_CONNECT_FAILED : Nat := 0x20003

def FREERDP_ERROR_DNS_ERROR : Nat := 0x20004

def FREERDP_ERROR_DNS_NAME_NOT_FOUND : Nat := 0x20005

def FREERDP_ERROR_CONNECT_FAILED : Nat := 0x20006

def FREERDP_ERROR_MCS_CONNECT_INITIAL_ERROR : Nat := 0x20007

def FREERDP_ERROR_TLS_CONNECT_FAILED : Nat := 0x20008

def FREERDP_ERROR_AUTHENTICATION_FAILED : Nat := 0x20009

def FREERDP_ERROR_INSUFFICIENT_PRIVILEGES : Nat := 0x2000A

def FREERDP_ERROR_CONNECT_CANCELLED : Nat := 0x2000B

def FREERDP_ERROR_SECURITY_NEGO_CONNECT_FAILED : Nat := 0x2000C

def FREERDP_ERROR_CONNECT_TRANSPORT_FAILED : Nat := 0x2000D

def FREERDP_ERROR_CONNECT_PASSWORD_EXPIRED : Nat := 0x2000E

def FREERDP_ERROR_CONNECT_PASSWORD_CERTAINLY_EXPIRED : Nat := 0x2000F

def FREERDP_ERROR_CONNECT_CLIENT_REVOKED : Nat := 0x20010

def FREERDP_ERROR_CONNECT_KDC_UNREACHABLE : Nat := 0x20011

def FREERDP_ERROR_CONNECT_ACCOUNT_DISABLED : Nat := 0x20012

def FREERDP_ERROR_CONNECT_PASSWORD_MUST_CHANGE : Nat := 0x20013

def FREERDP_ERROR_CONNECT_LOGON_FAILURE : Nat := 0x20014

def FREERDP_ERROR_CONNECT_WRONG_PASSWORD : Nat := 0x20015

def FREERDP_ERROR_CONNECT_ACCESS_DENIED : Nat := 0x20016

def FREERDP_ERROR_CONNECT_ACCOUNT_RESTRICTION : Nat := 0x20017

def FREERDP_ERROR_CONNECT_ACCOUNT_LOCKED_OUT : Nat := 0x20018

def FREERDP_ERROR_CONNECT_ACCOUNT_EXPIRED : Nat := 0x20019

def FREERDP_ERROR_CONNECT_LOGON_TYPE_NOT_GRANTED : Nat := 0x2001A

def FREERDP_ERROR_CONNECT_NO_OR_MISSING_CREDENTIALS : Nat := 0x2001B

/- ------------------------------------------------------------------ -/
/- enum SDL_EXIT_CODE (sdl_freerdp.c lines 57-124).                    -/
/- ------------------------------------------------------------------ -/

def SDL_EXIT_SUCCESS : Nat := 0

def SDL_EXIT_DISCONNECT : Nat := 1

def SDL_EXIT_LOGOFF : Nat := 2

def SDL_EXIT_IDLE_TIMEOUT : Nat := 3

def SDL_EXIT_LOGON_TIMEOUT : Nat := 4

def SDL_EXIT_CONN_REPLACED : Nat := 5

def SDL_EXIT_OUT_OF_MEMORY : Nat := 6

def SDL_EXIT_CONN_DENIED : Nat := 7

def SDL_EXIT_CONN_DENIED_FIPS : Nat := 8

def SDL_EXIT_USER_PRIVILEGES : Nat := 9

def SDL_EXIT_FRESH_CREDENTIALS_REQUIRED : Nat := 10

def SDL_EXIT_DISCONNECT_BY_USER : Nat := 11

def SDL_EXIT_LICENSE_INTERNAL : Nat := 16

def SDL_EXIT_LICENSE_NO_LICENSE_SERVER : Nat := 17

def SDL_EXIT_LICENSE_NO_LICENSE : Nat := 18

def SDL_EXIT_LICENSE_BAD_CLIENT_MSG : Nat := 19

def SDL_EXIT_LICENSE_HWID_DOESNT_MATCH : Nat := 20

def SDL_EXIT_LICENSE_BAD_CLIENT : Nat := 21

def SDL_EXIT_LICENSE_CANT_FINISH_PROTOCOL : Nat := 22

def SDL_EXIT_LICENSE_CLIENT_ENDED_PROTOCOL : Nat := 23

def SDL_EXIT_LICENSE_BAD_CLIENT_ENCRYPTION : Nat := 24

def SDL_EXIT_LICENSE_CANT_UPGRADE : Nat := 25

def SDL_EXIT_LICENSE_NO_REMOTE_CONNECTIONS : Nat := 26

def SDL_EXIT_RDP : Nat := 32

def SDL_EXIT_PARSE_ARGUMENTS : Nat := 128

def SDL_EXIT_MEMORY : Nat := 129

def SDL_EXIT_PROTOCOL : Nat := 130

def SDL_EXIT_CONN_FAILED : Nat := 131

def SDL_EXIT_AUTH_FAILURE : Nat := 132

def SDL_EXIT_NEGO_FAILURE : Nat := 133

def SDL_EXIT_LOGON_FAILURE : Nat := 134

def SDL_EXIT_ACCOUNT_LOCKED_OUT : Nat := 135

def SDL_EXIT_PRE_CONNECT_FAILED : Nat := 136

def SDL_EXIT_CONNECT_UNDEFINED : Nat := 137

def SDL_EXIT_POST_CONNECT_FAILED : Nat := 138

def SDL_EXIT_DNS_ERROR : Nat := 139

def SDL_EXIT_DNS_NAME_NOT_FOUND : Nat := 140

def SDL_EXIT_CONNECT_FAILED : Nat := 141

def SDL_EXIT_MCS_CONNECT_INITIAL_ERROR : Nat := 142

def SDL_EXIT_TLS_CONNECT_FAILED : Nat := 143

def SDL_EXIT_INSUFFICIENT_PRIVILEGES : Nat := 144

def SDL_EXIT_CONNECT_CANCELLED : Nat := 145

def SDL_EXIT_CONNECT_TRANSPORT_FAILED : Nat := 147

def SDL_EXIT_CONNECT_PASSWORD_EXPIRED : Nat := 148

def SDL_EXIT_CONNECT_PASSWORD_MUST_CHANGE : Nat := 149

def SDL_EXIT_CONNECT_KDC_UNREACHABLE : Nat := 150

def SDL_EXIT_CONNECT_ACCOUNT_DISABLED : Nat := 151

def SDL_EXIT_CONNECT_PASSWORD_CERTAINLY_EXPIRED : Nat := 152

def SDL_EXIT_CONNECT_CLIENT_REVOKED : Nat := 153

def SDL_EXIT_CONNECT_WRONG_PASSWORD : Nat := 154

def SDL_EXIT_CONNECT_ACCESS_DENIED : Nat := 155

def SDL_EXIT_CONNECT_ACCOUNT_RESTRICTION : Nat := 156

def SDL_EXIT_CONNECT_ACCOUNT_EXPIRED : Nat := 157

def SDL_EXIT_CONNECT_LOGON_TYPE_NOT_GRANTED : Nat := 158

def SDL_EXIT_CONNECT_NO_OR_MISSING_CREDENTIALS : Nat := 159

def SDL_EXIT_UNKNOWN : Nat := 255

/- ------------------------------------------------------------------ -/
/- struct sdl_exit_code_map_t and the static table (lines 126-200).    -/
/- ------------------------------------------------------------------ -/

/-- `struct sdl_exit_code_map_t { DWORD error; int code; const char* code_tag; }`
(sdl_freerdp.c lines 126-131). -/
structure sdl_exit_code_map_t where
  error : Nat
  code : Nat
  code_tag : String
deriving DecidableEq

/-- The static table `sdl_exit_code_map` (sdl_freerdp.c lines 137-200).
Each entry is built by `ENTRY(x, y) = { x, y, #y }`, so the tag is the
stringification of the exit-code enumerator name.  The order of the
entries is exactly the order in the source file. -/
def sdl_exit_code_map : List sdl_exit_code_map_t := [
  ⟨FREERDP_ERROR_SUCCESS, SDL_EXIT_SUCCESS, "SDL_EXIT_SUCCESS"⟩,
  ⟨FREERDP_ERROR_NONE, SDL_EXIT_DISCONNECT, "SDL_EXIT_DISCONNECT"⟩,
  ⟨FREERDP_ERROR_NONE, SDL_EXIT_LOGOFF, "SDL_EXIT_LOGOFF"⟩,
  ⟨FREERDP_ERROR_NONE, SDL_EXIT_IDLE_TIMEOUT, "SDL_EXIT_IDLE_TIMEOUT"⟩,
  ⟨FREERDP_ERROR_NONE, SDL_EXIT_LOGON_TIMEOUT, "SDL_EXIT_LOGON_TIMEOUT"⟩,
  ⟨FREERDP_ERROR_NONE, SDL_EXIT_CONN_REPLACED, "SDL_EXIT_CONN_REPLACED"⟩,
  ⟨FREERDP_ERROR_NONE, SDL_EXIT_OUT_OF_MEMORY, "SDL_EXIT_OUT_OF_MEMORY"⟩,
  ⟨FREERDP_ERROR_NONE, SDL_EXIT_CONN_DENIED, "SDL_EXIT_CONN_DENIED"⟩,
  ⟨FREERDP_ERROR_NONE, SDL_EXIT_CONN_DENIED_FIPS, "SDL_EXIT_CONN_DENIED_FIPS"⟩,
  ⟨FREERDP_ERROR_NONE, SDL_EXIT_USER_PRIVILEGES, "SDL_EXIT_USER_PRIVILEGES"⟩,
  ⟨FREERDP_ERROR_NONE, SDL_EXIT_FRESH_CREDENTIALS_REQUIRED,
    "SDL_EXIT_FRESH_CREDENTIALS_REQUIRED"⟩,
  ⟨ERRINFO_LOGOFF_BY_USER, SDL_EXIT_DISCONNECT_BY_USER, "SDL_EXIT_DISCONNECT_BY_USER"⟩,
  ⟨FREERDP_ERROR_NONE, SDL_EXIT_UNKNOWN, "SDL_EXIT_UNKNOWN"⟩,
  ⟨FREERDP_ERROR_NONE, SDL_EXIT_LICENSE_INTERNAL, "SDL_EXIT_LICENSE_INTERNAL"⟩,
  ⟨FREERDP_ERROR_NONE, SDL_EXIT_LICENSE_NO_LICENSE_SERVER,
    "SDL_EXIT_LICENSE_NO_LICENSE_SERVER"⟩,
  ⟨FREERDP_ERROR_NONE, SDL_EXIT_LICENSE_NO_LICENSE, "SDL_EXIT_LICENSE_NO_LICENSE"⟩,
  ⟨FREERDP_ERROR_NONE, SDL_EXIT_LICENSE_BAD_CLIENT_MSG, "SDL_EXIT_LICENSE_BAD_CLIENT_MSG"⟩,
  ⟨FREERDP_ERROR_NONE, SDL_EXIT_LICENSE_HWID_DOESNT_MATCH,
    "SDL_EXIT_LICENSE_HWID_DOESNT_MATCH"⟩,
  ⟨FREERDP_ERROR_NONE, SDL_EXIT_LICENSE_BAD_CLIENT, "SDL_EXIT_LICENSE_BAD_CLIENT"⟩,
  ⟨FREERDP_ERROR_NONE, SDL_EXIT_LICENSE_CANT_FINISH_PROTOCOL,
    "SDL_EXIT_LICENSE_CANT_FINISH_PROTOCOL"⟩,
  ⟨FREERDP_ERROR_NONE, SDL_EXIT_LICENSE_CLIENT_ENDED_PROTOCOL,
    "SDL_EXIT_LICENSE_CLIENT_ENDED_PROTOCOL"⟩,
  ⟨FREERDP_ERROR_NONE, SDL_EXIT_LICENSE_BAD_CLIENT_ENCRYPTION,
    "SDL_EXIT_LICENSE_BAD_CLIENT_ENCRYPTION"⟩,
  ⟨FREERDP_ERROR_NONE, SDL_EXIT_LICENSE_CANT_UPGRADE, "SDL_EXIT_LICENSE_CANT_UPGRADE"⟩,
  ⟨FREERDP_ERROR_NONE, SDL_EXIT_LICENSE_NO_REMOTE_CONNECTIONS,
    "SDL_EXIT_LICENSE_NO_REMOTE_CONNECTIONS"⟩,
  ⟨FREERDP_ERROR_NONE, SDL_EXIT_LICENSE_CANT_UPGRADE, "SDL_EXIT_LICENSE_CANT_UPGRADE"⟩,
  ⟨FREERDP_ERROR_NONE, SDL_EXIT_RDP, "SDL_EXIT_RDP"⟩,
  ⟨FREERDP_ERROR_NONE, SDL_EXIT_PARSE_ARGUMENTS, "SDL_EXIT_PARSE_ARGUMENTS"⟩,
  ⟨FREERDP_ERROR_NONE, SDL_EXIT_MEMORY, "SDL_EXIT_MEMORY"⟩,
  ⟨FREERDP_ERROR_NONE, SDL_EXIT_PROTOCOL, "SDL_EXIT_PROTOCOL"⟩,
  ⟨FREERDP_ERROR_NONE, SDL_EXIT_CONN_FAILED, "SDL_EXIT_CONN_FAILED"⟩,
  ⟨FREERDP_ERROR_AUTHENTICATION_FAILED, SDL_EXIT_AUTH_FAILURE, "SDL_EXIT_AUTH_FAILURE"⟩,
  ⟨FREERDP_ERROR_SECURITY_NEGO_CONNECT_FAILED, SDL_EXIT_NEGO_FAILURE, "SDL_EXIT_NEGO_FAILURE"⟩,
  ⟨FREERDP_ERROR_CONNECT_LOGON_FAILURE, SDL_EXIT_LOGON_FAILURE, "SDL_EXIT_LOGON_FAILURE"⟩,
  ⟨FREERDP_ERROR_CONNECT_ACCOUNT_LOCKED_OUT, SDL_EXIT_ACCOUNT_LOCKED_OUT,
    "SDL_EXIT_ACCOUNT_LOCKED_OUT"⟩,
  ⟨FREERDP_ERROR_PRE_CONNECT_FAILED, SDL_EXIT_PRE_CONNECT_FAILED,
    "SDL_EXIT_PRE_CONNECT_FAILED"⟩,
  ⟨FREERDP_ERROR_CONNECT_UNDEFINED, SDL_EXIT_CONNECT_UNDEFINED, "SDL_EXIT_CONNECT_UNDEFINED"⟩,
  ⟨FREERDP_ERROR_POST_CONNECT_FAILED, SDL_EXIT_POST_CONNECT_FAILED,
    "SDL_EXIT_POST_CONNECT_FAILED"⟩,
  ⟨FREERDP_ERROR_DNS_ERROR, SDL_EXIT_DNS_ERROR, "SDL_EXIT_DNS_ERROR"⟩,
  ⟨FREERDP_ERROR_DNS_NAME_NOT_FOUND, SDL_EXIT_DNS_NAME_NOT_FOUND,
    "SDL_EXIT_DNS_NAME_NOT_FOUND"⟩,
  ⟨FREERDP_ERROR_CONNECT_FAILED, SDL_EXIT_CONNECT_FAILED, "SDL_EXIT_CONNECT_FAILED"⟩,
  ⟨FREERDP_ERROR_MCS_CONNECT_INITIAL_ERROR, SDL_EXIT_MCS_CONNECT_INITIAL_ERROR,
    "SDL_EXIT_MCS_CONNECT_INITIAL_ERROR"⟩,
  ⟨FREERDP_ERROR_TLS_CONNECT_FAILED, SDL_EXIT_TLS_CONNECT_FAILED,
    "SDL_EXIT_TLS_CONNECT_FAILED"⟩,
  ⟨FREERDP_ERROR_INSUFFICIENT_PRIVILEGES, SDL_EXIT_INSUFFICIENT_PRIVILEGES,
    "SDL_EXIT_INSUFFICIENT_PRIVILEGES"⟩,
  ⟨FREERDP_ERROR_CONNECT_CANCELLED, SDL_EXIT_CONNECT_CANCELLED, "SDL_EXIT_CONNECT_CANCELLED"⟩,
  ⟨FREERDP_ERROR_CONNECT_TRANSPORT_FAILED, SDL_EXIT_CONNECT_TRANSPORT_FAILED,
    "SDL_EXIT_CONNECT_TRANSPORT_FAILED"⟩,
  ⟨FREERDP_ERROR_CONNECT_PASSWORD_EXPIRED, SDL_EXIT_CONNECT_PASSWORD_EXPIRED,
    "SDL_EXIT_CONNECT_PASSWORD_EXPIRED"⟩,
  ⟨FREERDP_ERROR_CONNECT_PASSWORD_MUST_CHANGE, SDL_EXIT_CONNECT_PASSWORD_MUST_CHANGE,
    "SDL_EXIT_CONNECT_PASSWORD_MUST_CHANGE"⟩,
  ⟨FREERDP_ERROR_CONNECT_KDC_UNREACHABLE, SDL_EXIT_CONNECT_KDC_UNREACHABLE,
    "SDL_EXIT_CONNECT_KDC_UNREACHABLE"⟩,
  ⟨FREERDP_ERROR_CONNECT_ACCOUNT_DISABLED, SDL_EXIT_CONNECT_ACCOUNT_DISABLED,
    "SDL_EXIT_CONNECT_ACCOUNT_DISABLED"⟩,
  ⟨FREERDP_ERROR_CONNECT_PASSWORD_CERTAINLY_EXPIRED,
    SDL_EXIT_CONNECT_PASSWORD_CERTAINLY_EXPIRED,
    "SDL_EXIT_CONNECT_PASSWORD_CERTAINLY_EXPIRED"⟩,
  ⟨FREERDP_ERROR_CONNECT_CLIENT_REVOKED, SDL_EXIT_CONNECT_CLIENT_REVOKED,
    "SDL_EXIT_CONNECT_CLIENT_REVOKED"⟩,
  ⟨FREERDP_ERROR_CONNECT_WRONG_PASSWORD, SDL_EXIT_CONNECT_WRONG_PASSWORD,
    "SDL_EXIT_CONNECT_WRONG_PASSWORD"⟩,
  ⟨FREERDP_ERROR_CONNECT_ACCESS_DENIED, SDL_EXIT_CONNECT_ACCESS_DENIED,
    "SDL_EXIT_CONNECT_ACCESS_DENIED"⟩,
  ⟨FREERDP_ERROR_CONNECT_ACCOUNT_RESTRICTION, SDL_EXIT_CONNECT_ACCOUNT_RESTRICTION,
    "SDL_EXIT_CONNECT_ACCOUNT_RESTRICTION"⟩,
  ⟨FREERDP_ERROR_CONNECT_ACCOUNT_EXPIRED, SDL_EXIT_CONNECT_ACCOUNT_EXPIRED,
    "SDL_EXIT_CONNECT_ACCOUNT_EXPIRED"⟩,
  ⟨FREERDP_ERROR_CONNECT_LOGON_TYPE_NOT_GRANTED, SDL_EXIT_CONNECT_LOGON_TYPE_NOT_GRANTED,
    "SDL_EXIT_CONNECT_LOGON_TYPE_NOT_GRANTED"⟩,
  ⟨FREERDP_ERROR_CONNECT_NO_OR_MISSING_CREDENTIALS,
    SDL_EXIT_CONNECT_NO_OR_MISSING_CREDENTIALS,
    "SDL_EXIT_CONNECT_NO_OR_MISSING_CREDENTIALS"⟩]

/-- The scanning loop of `sdl_map_entry_by_code` (lines 202-212): walk the
table front to back and return the first entry whose `code` field matches. -/
def sdl_map_entry_by_code_scan (exit_code : Nat) :
    List sdl_exit_code_map_t → Option sdl_exit_code_map_t
  | [] => none
  | cur :: rest =>
    if cur.code = exit_code then some cur else sdl_map_entry_by_code_scan exit_code rest

/-- `sdl_map_entry_by_code` (lines 202-212). -/
def sdl_map_entry_by_code (exit_code : Nat) : Option sdl_exit_code_map_t :=
  sdl_map_entry_by_code_scan exit_code sdl_exit_code_map

/-- The scanning loop of `sdl_map_entry_by_error` (lines 214-224): walk the
table front to back and return the first entry whose `error` field matches. -/
def sdl_map_entry_by_error_scan (error : Nat) :
    List sdl_exit_code_map_t → Option sdl_exit_code_map_t
  | [] => none
  | cur :: rest =>
    if cur.error = error then some cur else sdl_map_entry_by_error_scan error rest

/-- `sdl_map_entry_by_error` (lines 214-224). -/
def sdl_map_entry_by_error (error : Nat) : Option sdl_exit_code_map_t :=
  sdl_map_entry_by_error_scan error sdl_exit_code_map

/-- `sdl_map_error_to_exit_code` (lines 226-233): code of the first entry
matching `error`, defaulting to `SDL_EXIT_CONN_FAILED`. -/
def sdl_map_error_to_exit_code (error : Nat) : Nat :=
  match sdl_map_entry_by_error error with
  | some entry => entry.code
  | none => SDL_EXIT_CONN_FAILED

/-- `sdl_map_error_to_code_tag` (lines 235-241). -/
def sdl_map_error_to_code_tag (error : Nat) : Option String :=
  match sdl_map_entry_by_error error with
  | some entry => some entry.code_tag
  | none => none

/-- `sdl_map_to_code_tag` (lines 243-249): tag of the first entry whose
`code` matches, `NULL` (here `none`) if no entry matches. -/
def sdl_map_to_code_tag (code : Nat) : Option String :=
  match sdl_map_entry_by_code code with
  | some entry => some entry.code_tag
  | none => none

/- ------------------------------------------------------------------ -/
/- Session state model.                                                -/
/- ------------------------------------------------------------------ -/

/-- `GDI_RGN`: one invalid rectangle of the shared framebuffer
(fields are `INT32` in the source). -/
structure GdiRgn where
  x : Int
  y : Int
  w : Int
  h : Int
deriving DecidableEq

/-- `SDL_Rect`. -/
structure SdlRect where
  x : Int
  y : Int
  w : Int
  h : Int
deriving DecidableEq

/-- The GDI pieces `sdl_begin_paint` / `sdl_end_paint_process` read and
write: framebuffer geometry (`gdi->width`, `gdi->height`), the
suppress-output flag, and the invalid-region tracker
(`gdi->primary->hdc->hwnd->invalid->null`, `->ninvalid`, `->cinvalid`). -/
structure GdiState where
  width : Nat
  height : Nat
  suppressOutput : Bool
  invalidNull : Bool
  ninvalid : Nat
  cinvalid : List GdiRgn
deriving DecidableEq

/-- `sdl_window_t`: one native window.  `width`/`height` stand for the values
`SDL_GetWindowSize` reports; `offset_x`/`offset_y` are the centering offsets
the compositor stores into the window record. -/
structure sdl_window_t where
  width : Nat
  height : Nat
  offset_x : Nat
  offset_y : Nat
deriving DecidableEq

/-- The SDL user events the file pushes with `sdl_push_user_event`
(the Command Channel of the spec).  Payloads irrelevant to the claims
(window handles, cursor data) are reduced to the window index / flag. -/
inductive SdlUserEvent where
  | update
  | create_windows
  | window_resizeable (windowIdx : Nat) (use : Bool)
  | window_fullscreen (windowIdx : Nat) (enter : Bool)
deriving DecidableEq

/-- `sdlContext`: the session aggregate.  The four `HANDLE` fields are the
WinPR manual-reset events created in `sdl_client_new`; a `Bool` records
whether the event is signaled.  `init_request` models `sdl->initialize`
(the name is shortened), `abort` the connection abort event returned by
`freerdp_abort_event`, `queue` the SDL event queue restricted to the user
events this file pushes. -/
structure sdlContext where
  init_request : Bool
  initialized : Bool
  update_complete : Bool
  windows_created : Bool
  abort : Bool
  queue : List SdlUserEvent
  windows : List sdl_window_t
  windowCount : Nat
  resizeable : Bool
  fullscreen : Bool
  highDpi : Bool
  smartSizing : Bool
  gdi : GdiState
deriving DecidableEq

/-- The settings fields `sdl_pre_connect`, `update_resizeable` and
`update_fullscreen` read or write (`rdpSettings` is external; only the
accessed fields are modelled). -/
structure rdpSettings where
  authenticationOnly : Bool
  password : Option String
  smartSizing : Bool
  dynamicResolutionUpdate : Bool
  deactivateClientDecoding : Bool
  desktopWidth : Nat
  desktopHeight : Nat
  osMajorType : Nat
  osMinorType : Nat
deriving DecidableEq

/-- Modelled from the spec: `OSMAJORTYPE_UNIX` comes from the protocol
headers outside src/; its numeric value is immaterial to every claim. -/
def OSMAJORTYPE_UNIX : Nat := 4

/-- Modelled from the spec: `OSMINORTYPE_NATIVE_SDL` comes from the protocol
headers outside src/; its numeric value is immaterial to every claim. -/
def OSMINORTYPE_NATIVE_SDL : Nat := 8

/-- `sdl_client_new` (lines 1130-1154), restricted to the state it sets up:
`CreateEventA(NULL, TRUE, FALSE, NULL)` for `initialize`, `initialized` and
`windows_created` (manual reset, initially NOT signaled) and
`CreateEventA(NULL, TRUE, TRUE, NULL)` for `update_complete`
(manual reset, initially SIGNALED). -/
def sdl_client_new : sdlContext :=
  { init_request := false
    initialized := false
    update_complete := true
    windows_created := false
    abort := false
    queue := []
    windows := []
    windowCount := 0
    resizeable := false
    fullscreen := false
    highDpi := false
    smartSizing := false
    gdi :=
      { width := 0
        height := 0
        suppressOutput := false
        invalidNull := false
        ninvalid := 0
        cinvalid := [] } }

/-- `sdl_begin_paint` (lines 267-296).  It waits on
`{ sdl->update_complete, abort }`; `WaitForMultipleObjects` returns the
lowest signaled index, so the gate is tested first.  On `WAIT_OBJECT_0`
the gate is reset and the invalid-region tracker cleared
(`invalid->null = TRUE; ninvalid = 0`); every other wait result returns
`FALSE`.  `none` models the blocking case (neither handle signaled). -/
def sdl_begin_paint (s : sdlContext) : Option (Bool × sdlContext) :=
  if s.update_complete then
    some (true, { s with update_complete := false,
                         gdi := { s.gdi with invalidNull := true, ninvalid := 0 } })
  else if s.abort then
    some (false, s)
  else
    none

/-- The destination-rectangle computation and blit of one invalid rectangle
in the unscaled branch of `sdl_end_paint_process` (lines 350-358):
`dstRect = { offset_x + rgn->x, offset_y + rgn->y, rgn->w, rgn->h }`,
then `SDL_BlitSurface` (direct copy). -/
structure BlitOp where
  src : SdlRect
  dst : SdlRect
  scaled : Bool
deriving DecidableEq

/-- Modelled from the spec: `sdl_scale_coordinates` (sdl_touch.c, outside
src/) applies the per-axis ratio of window size to framebuffer size;
forward (`inverse = false`) maps framebuffer space to window space by
`v * winSize / fbSize`, the inverse direction divides by the same ratio.
Integer truncation of nonnegative values is floor division. -/
def sdl_scale_coordinate (winSize fbSize : Nat) (inverse : Bool) (v : Nat) : Nat :=
  if inverse then v * fbSize / winSize else v * winSize / fbSize

/-- Modelled from the spec: the same transform on `INT32` coordinates,
truncating toward zero as a C cast does. -/
def sdl_scale_coordinate_int (winSize fbSize : Nat) (inverse : Bool) (v : Int) : Int :=
  if inverse then Int.tdiv (v * fbSize) winSize else Int.tdiv (v * winSize) fbSize

/-- The unscaled blit loop of `sdl_end_paint_process` (lines 350-358),
emitting one direct copy per invalid rectangle. -/
def blit_loop_unscaled (ox oy : Nat) : List GdiRgn → List BlitOp
  | [] => []
  | r :: rest =>
    { src := { x := r.x, y := r.y, w := r.w, h := r.h }
      dst := { x := (ox : Int) + r.x, y := (oy : Int) + r.y, w := r.w, h := r.h }
      scaled := false } :: blit_loop_unscaled ox oy rest

/-- The SmartSizing blit loop of `sdl_end_paint_process` (lines 360-374),
emitting one stretched copy per invalid rectangle with the destination
rectangle transformed by the Coordinate Scaler in x/y and w/h. -/
def blit_loop_scaled (winW winH fbW fbH : Nat) : List GdiRgn → List BlitOp
  | [] => []
  | r :: rest =>
    { src := { x := r.x, y := r.y, w := r.w, h := r.h }
      dst := { x := sdl_scale_coordinate_int winW fbW false r.x
               y := sdl_scale_coordinate_int winH fbH false r.y
               w := sdl_scale_coordinate_int winW fbW false r.w
               h := sdl_scale_coordinate_int winH fbH false r.h }
      scaled := true } :: blit_loop_scaled winW winH fbW fbH rest

/-- The per-window body of the compositing loop in `sdl_end_paint_process`
(lines 329-376): reset the offsets, and in the non-SmartSizing branch
recompute them (centering offset with floor division when the window is
strictly larger than the framebuffer on that axis) before the unscaled
blit loop; in the SmartSizing branch keep them zero and run the scaled
blit loop. -/
def sdl_process_window (gdi : GdiState) (smartSizing : Bool) (rects : List GdiRgn)
    (win : sdl_window_t) : sdl_window_t × List BlitOp :=
  if !smartSizing then
    let ox : Nat := if gdi.width < win.width then (win.width - gdi.width) / 2 else 0
    let oy : Nat := if gdi.height < win.height then (win.height - gdi.height) / 2 else 0
    ({ win with offset_x := ox, offset_y := oy }, blit_loop_unscaled ox oy rects)
  else
    ({ win with offset_x := 0, offset_y := 0 },
     blit_loop_scaled win.width win.height gdi.width gdi.height rects)

/-- `sdl_end_paint_process` (lines 306-380).  When output is suppressed, the
invalid region is null, or fewer than one rectangle is invalid, all blitting
is skipped (`goto out`); in every case the function ends with
`SetEvent(sdl->update_complete)` and returns its result.  The emitted blit
operations are returned as the third component. -/
def sdl_end_paint_process (s : sdlContext) : Bool × sdlContext × List BlitOp :=
  if s.gdi.suppressOutput || s.gdi.invalidNull then
    (true, { s with update_complete := true }, [])
  else if s.gdi.ninvalid < 1 then
    (true, { s with update_complete := true }, [])
  else
    let rects := s.gdi.cinvalid.take s.gdi.ninvalid
    let results := s.windows.map (sdl_process_window s.gdi s.smartSizing rects)
    (true,
     { s with windows := results.map Prod.fst, update_complete := true },
     (results.map Prod.snd).flatten)

/-- `sdl_wait_for_init` (lines 439-455): signal `sdl->initialize`, then wait
on `{ sdl->initialized, abort }`; success only on `WAIT_OBJECT_0`. -/
def sdl_wait_for_init (s : sdlContext) : Option (Bool × sdlContext) :=
  let s1 := { s with init_request := true }
  if s1.initialized then some (true, s1)
  else if s1.abort then some (false, s1)
  else none

/-- `sdl_create_windows` (lines 574-617), executed by the UI thread for the
`SDL_USEREVENT_CREATE_WINDOWS` command: set `windowCount = 1`, create the
window (`createOk` stands for the `SDL_CreateWindow` outcome, `w`/`h` for
the desktop geometry), and signal `sdl->windows_created` on success and
failure alike before returning. -/
def sdl_create_windows (s : sdlContext) (createOk : Bool) (w h : Nat) :
    Bool × sdlContext :=
  let s1 := { s with windowCount := 1 }
  if createOk then
    let s2 := { s1 with windows := [{ width := w, height := h, offset_x := 0, offset_y := 0 }] }
    (true, { s2 with windows_created := true })
  else
    (false, { s1 with windows_created := true })

/-- `sdl_wait_create_windows` (lines 619-636): reset `sdl->windows_created`,
push the `SDL_USEREVENT_CREATE_WINDOWS` command (`pushOk` stands for the
`sdl_push_user_event` outcome), then wait on
`{ sdl->initialized, abort }` — the source waits on `initialized`, not on
`windows_created`. -/
def sdl_wait_create_windows (s : sdlContext) (pushOk : Bool) : Option (Bool × sdlContext) :=
  let s1 := { s with windows_created := false }
  if !pushOk then some (false, s1)
  else
    let s2 := { s1 with queue := s1.queue ++ [SdlUserEvent.create_windows] }
    if s2.initialized then some (true, s2)
    else if s2.abort then some (false, s2)
    else none

/-- The startup prefix of `sdl_run` (lines 671-688) up to the point where the
UI thread enters its event loop: after `sdl->initialize` is observed, the
toolkit is initialized and `sdl->initialized` is signaled. -/
def sdl_run_signal_initialized (s : sdlContext) : sdlContext :=
  { s with initialized := true }

/-- The monitor-detection outcome `sdl_pre_connect` consumes from
`sdl_detect_monitors` (sdl_monitor.c, outside src/): success flag and the
detected maximal geometry. -/
structure MonitorOracle where
  detectOk : Bool
  maxWidth : Nat
  maxHeight : Nat

/-- Result record of `sdl_pre_connect`: return value, the settings after the
call, the session state after the call, and whether the handshake wait
(`sdl_wait_for_init`) was performed. -/
structure PreConnectResult where
  ok : Bool
  settings : rdpSettings
  sdl : sdlContext
  waited_for_init : Bool
deriving DecidableEq

/-- `sdl_pre_connect` (lines 459-521).  It sets `sdl->highDpi = TRUE` and the
OS identifiers, then branches on `FreeRDP_AuthenticationOnly`:
without auth-only it performs the handshake wait and monitor detection and
may update the desktop geometry; with auth-only it first rejects a missing
password (`return FALSE` before anything else of the branch), otherwise sets
`FreeRDP_DeactivateClientDecoding`.  `none` models blocking inside the
handshake wait. -/
def sdl_pre_connect (settings : rdpSettings) (s : sdlContext) (mon : MonitorOracle) :
    Option PreConnectResult :=
  let sdl1 := { s with highDpi := true }
  let settings1 := { settings with osMajorType := OSMAJORTYPE_UNIX,
                                   osMinorType := OSMINORTYPE_NATIVE_SDL }
  if !settings1.authenticationOnly then
    match sdl_wait_for_init sdl1 with
    | none => none
    | some (false, s2) => some { ok := false, settings := settings1, sdl := s2,
                                 waited_for_init := true }
    | some (true, s2) =>
      if !mon.detectOk then
        some { ok := false, settings := settings1, sdl := s2, waited_for_init := true }
      else
        let settings2 :=
          if mon.maxWidth ≠ 0 ∧ mon.maxHeight ≠ 0 ∧ !settings1.smartSizing then
            { settings1 with desktopWidth := mon.maxWidth, desktopHeight := mon.maxHeight }
          else settings1
        some { ok := true, settings := settings2, sdl := s2, waited_for_init := true }
  else
    if settings1.password.isNone then
      some { ok := false, settings := settings1, sdl := sdl1, waited_for_init := false }
    else
      some { ok := true,
             settings := { settings1 with deactivateClientDecoding := true },
             sdl := sdl1, waited_for_init := false }

/-- The enqueue loop shared by `update_resizeable` and `update_fullscreen`
(lines 647-652 and 661-666): push one user event per window index, stopping
with failure as soon as one push fails.  `pushOk i` stands for the outcome
of the i-th `sdl_push_user_event`; the second component collects the events
actually pushed. -/
def enqueue_from (mk : Nat → SdlUserEvent) (pushOk : Nat → Bool) :
    Nat → Nat → Bool × List SdlUserEvent
  | _, 0 => (true, [])
  | x, n + 1 =>
    if pushOk x then
      let r := enqueue_from mk pushOk (x + 1) n
      (r.1, mk x :: r.2)
    else
      (false, [])

/-- `update_resizeable` (lines 638-655): compute
`use = (dyn AND enable) OR smart`, push one
`SDL_USEREVENT_WINDOW_RESIZEABLE` per window, return `FALSE` on the first
failed push, and only after the loop set `sdl->resizeable = use`. -/
def update_resizeable (settings : rdpSettings) (s : sdlContext) (enable : Bool)
    (pushOk : Nat → Bool) : Bool × sdlContext :=
  let dyn := settings.dynamicResolutionUpdate
  let smart := settings.smartSizing
  let use := (dyn && enable) || smart
  let r := enqueue_from (fun x => SdlUserEvent.window_resizeable x use) pushOk 0 s.windowCount
  if r.1 then
    (true, { s with queue := s.queue ++ r.2, resizeable := use })
  else
    (false, { s with queue := s.queue ++ r.2 })

/-- `update_fullscreen` (lines 657-669): push one
`SDL_USEREVENT_WINDOW_FULLSCREEN` per window, return `FALSE` on the first
failed push, and only after the loop set `sdl->fullscreen = enter`. -/
def update_fullscreen (s : sdlContext) (enter : Bool) (pushOk : Nat → Bool) :
    Bool × sdlContext :=
  let r := enqueue_from (fun x => SdlUserEvent.window_fullscreen x enter) pushOk 0 s.windowCount
  if r.1 then
    (true, { s with queue := s.queue ++ r.2, fullscreen := enter })
  else
    (false, { s with queue := s.queue ++ r.2 })

/-- The session state right after the startup handshake: the Protocol Thread
has signaled `sdl->initialize` inside `sdl_wait_for_init`, and the UI thread
has performed `SDL_Init` and signaled `sdl->initialized` in `sdl_run`.
`sdl->initialized` is a manual-reset event and is never reset afterwards. -/
def handshake_done_state : sdlContext :=
  sdl_run_signal_initialized { sdl_client_new with init_request := true }

/-- Boolean check used below: the tag lookup (`sdl_map_to_code_tag`) returns
the recorded tag for the code of every table entry. -/
def tag_check : Bool :=
  sdl_exit_code_map.all (fun entry => sdl_map_to_code_tag entry.code == some entry.code_tag)

/-- Concrete state used as a witness input: output suppressed while one
rectangle is marked invalid. -/
def c6_state : sdlContext :=
  { sdl_client_new with
    update_complete := false,
    gdi := { width := 640, height := 480, suppressOutput := true,
             invalidNull := false, ninvalid := 1,
             cinvalid := [{ x := 0, y := 0, w := 1, h := 1 }] } }

/-- Concrete GDI state used as a witness input: a 100 by 80 framebuffer with
one invalid rectangle. -/
def c7_gdi : GdiState :=
  { width := 100, height := 80, suppressOutput := false, invalidNull := false,
    ninvalid := 1, cinvalid := [{ x := 10, y := 20, w := 5, h := 6 }] }

/-- Concrete window used as a witness input: 120 by 90, larger than the
framebuffer on both axes. -/
def c7_win : sdl_window_t :=
  { width := 120, height := 90, offset_x := 0, offset_y := 0 }

/-- Concrete session used as a witness input for the compositing pipeline. -/
def c7_state : sdlContext :=
  { sdl_client_new with windows := [c7_win], windowCount := 1, gdi := c7_gdi }

/-- Concrete settings used as a witness input: authentication-only with no
password. -/
def c8_settings : rdpSettings :=
  { authenticationOnly := true, password := none, smartSizing := false,
    dynamicResolutionUpdate := false, deactivateClientDecoding := false,
    desktopWidth := 0, desktopHeight := 0, osMajorType := 0, osMinorType := 0 }

/-- Concrete settings used as a witness input: dynamic resolution updates
enabled, SmartSizing off. -/
def c10_settings : rdpSettings :=
  { authenticationOnly := false, password := none, smartSizing := false,
    dynamicResolutionUpdate := true, deactivateClientDecoding := false,
    desktopWidth := 0, desktopHeight := 0, osMajorType := 0, osMinorType := 0 }

/-- Concrete session used as a witness input: two windows. -/
def c10_state : sdlContext :=
  { sdl_client_new with windowCount := 2 }

/- ------------------------------------------------------------------ -/
/- Theorems.                                                           -/
/- ------------------------------------------------------------------ -/

theorem sdl_scan_error_none_iff (e : Nat) (l : List sdl_exit_code_map_t) :
    sdl_map_entry_by_error_scan e l = none ↔ ∀ entry ∈ l, entry.error ≠ e := by
  induction l with
  | nil => simp [sdl_map_entry_by_error_scan]
  | cons cur rest ih =>
    by_cases hc : cur.error = e
    · simp [sdl_map_entry_by_error_scan, hc]
    · simp [sdl_map_entry_by_error_scan, hc, ih]

theorem sdl_scan_error_first_match (e : Nat) (l : List sdl_exit_code_map_t) :
    ∀ (i : Nat) (h : i < l.length),
      (l.get ⟨i, h⟩).error = e →
      (∀ j (hj : j < i), (l.get ⟨j, Nat.lt_trans hj h⟩).error ≠ e) →
      sdl_map_entry_by_error_scan e l = some (l.get ⟨i, h⟩) := by
  induction l with
  | nil => intro i h; exact absurd h (Nat.not_lt_zero i)
  | cons cur rest ih =>
    intro i h he hfirst
    cases i with
    | zero =>
      have hcur : cur.error = e := by simpa using he
      simp [sdl_map_entry_by_error_scan, hcur]
    | succ n =>
      have hcur : ¬ (cur.error = e) := by
        have h0 := hfirst 0 (Nat.succ_pos n)
        simpa using h0
      have hrec := ih n (Nat.lt_of_succ_lt_succ h) (by simpa using he)
        (fun j hj => by
          have hstep := hfirst (j + 1) (Nat.succ_lt_succ hj)
          simpa using hstep)
      simpa [sdl_map_entry_by_error_scan, hcur] using hrec

theorem tag_check_eq_true : tag_check = true := by decide

/-- C1: the claim as frozen is false on the code.  The table intentionally
holds many entries with the duplicated protocol error `FREERDP_ERROR_NONE`;
lookup by error is first-match, so for the entry
`(FREERDP_ERROR_NONE, SDL_EXIT_LOGOFF, "SDL_EXIT_LOGOFF")` at index 2 the
error lookup returns `SDL_EXIT_DISCONNECT` (the code of the FIRST
`FREERDP_ERROR_NONE` entry), not `SDL_EXIT_LOGOFF`. -/
theorem C1_exit_code_table_counterexample :
    sdl_exit_code_map[2]? =
      some { error := FREERDP_ERROR_NONE, code := SDL_EXIT_LOGOFF,
             code_tag := "SDL_EXIT_LOGOFF" } ∧
    sdl_map_error_to_exit_code FREERDP_ERROR_NONE = SDL_EXIT_DISCONNECT ∧
    SDL_EXIT_DISCONNECT ≠ SDL_EXIT_LOGOFF :=
  ⟨rfl, rfl, by decide⟩

/-- C1 (amended): for every entry `(e, c, tag)` of `sdl_exit_code_map`,
the tag lookup satisfies `sdl_map_to_code_tag c = tag`; and
`sdl_map_error_to_exit_code e = c` holds whenever the entry is the first
entry of the table whose protocol-error field equals `e` (duplicate-error
entries after the first resolve to the code of the first). -/
theorem C1_exit_code_table (i : Nat) (h : i < sdl_exit_code_map.length) :
    ((∀ j (hj : j < i),
        (sdl_exit_code_map.get ⟨j, Nat.lt_trans hj h⟩).error ≠
          (sdl_exit_code_map.get ⟨i, h⟩).error) →
      sdl_map_error_to_exit_code (sdl_exit_code_map.get ⟨i, h⟩).error =
        (sdl_exit_code_map.get ⟨i, h⟩).code) ∧
    sdl_map_to_code_tag (sdl_exit_code_map.get ⟨i, h⟩).code =
      some (sdl_exit_code_map.get ⟨i, h⟩).code_tag := by
  constructor
  · intro hfirst
    have hscan := sdl_scan_error_first_match
      ((sdl_exit_code_map.get ⟨i, h⟩).error) sdl_exit_code_map i h rfl hfirst
    simp only [List.get_eq_getElem] at hscan
    simp [sdl_map_error_to_exit_code, sdl_map_entry_by_error, hscan]
  · have hmem : sdl_exit_code_map.get ⟨i, h⟩ ∈ sdl_exit_code_map :=
      List.get_mem sdl_exit_code_map i h
    have hall := tag_check_eq_true
    rw [tag_check, List.all_eq_true] at hall
    have h2 := hall _ hmem
    simpa using h2

/-- Witness for C1: the amended theorem applied at index 0
(the entry `(FREERDP_ERROR_SUCCESS, SDL_EXIT_SUCCESS)`). -/
theorem C1_exit_code_table_witness :
    sdl_map_error_to_exit_code FREERDP_ERROR_SUCCESS = SDL_EXIT_SUCCESS ∧
    sdl_map_to_code_tag SDL_EXIT_SUCCESS = some "SDL_EXIT_SUCCESS" := by
  have h := C1_exit_code_table 0 (by decide)
  exact ⟨h.1 (fun j hj => absurd hj (Nat.not_lt_zero j)), h.2⟩

/-- C3: the exit-code lookup never fails.  For every protocol error `e`,
if some table entry has error field `e` then `sdl_map_error_to_exit_code e`
returns the code of the first such entry; for every `e` not present in any
entry it returns `SDL_EXIT_CONN_FAILED`. -/
theorem C3_exit_code_lookup_total :
    (∀ (e i : Nat) (h : i < sdl_exit_code_map.length),
        (sdl_exit_code_map.get ⟨i, h⟩).error = e →
        (∀ j (hj : j < i), (sdl_exit_code_map.get ⟨j, Nat.lt_trans hj h⟩).error ≠ e) →
        sdl_map_error_to_exit_code e = (sdl_exit_code_map.get ⟨i, h⟩).code) ∧
    (∀ e : Nat, (∀ entry ∈ sdl_exit_code_map, entry.error ≠ e) →
        sdl_map_error_to_exit_code e = SDL_EXIT_CONN_FAILED) := by
  constructor
  · intro e i h he hfirst
    have hscan := sdl_scan_error_first_match e sdl_exit_code_map i h he hfirst
    simp only [List.get_eq_getElem] at hscan
    simp [sdl_map_error_to_exit_code, sdl_map_entry_by_error, hscan]
  · intro e hnone
    have hscan := (sdl_scan_error_none_iff e sdl_exit_code_map).mpr hnone
    simp [sdl_map_error_to_exit_code, sdl_map_entry_by_error, hscan]

/-- Witness for C3: a mapped error (authentication failure, first matching
entry at index 30) and an unmapped error (`0xDEAD`) falling back to
`SDL_EXIT_CONN_FAILED`. -/
theorem C3_exit_code_lookup_total_witness :
    sdl_map_error_to_exit_code FREERDP_ERROR_AUTHENTICATION_FAILED = SDL_EXIT_AUTH_FAILURE ∧
    sdl_map_error_to_exit_code 0xDEAD = SDL_EXIT_CONN_FAILED := by
  constructor
  · exact C3_exit_code_lookup_total.1 FREERDP_ERROR_AUTHENTICATION_FAILED 30 (by decide)
      (by decide) (by decide)
  · exact C3_exit_code_lookup_total.2 0xDEAD (by decide)

/-- C2: the claim fails on the code (code bug).  In the state reached after
the startup handshake (`sdl->initialized` signaled by `sdl_run` and never
reset), `sdl_wait_create_windows` returns success immediately — before the
UI thread has executed the CreateWindows command: the returned state still
has no window (`windows = []`, `windowCount = 0`), the command is still
pending in the queue and `windows_created` is unsignaled.  The last
conjunct shows the intended completion handle: `sdl_create_windows`
signals `windows_created`, the very event the waiter resets but then never
waits on (it waits on `sdl->initialized` instead). -/
theorem C2_wait_create_windows_premature_success :
    sdl_wait_create_windows handshake_done_state true =
      some (true, { handshake_done_state with
                    windows_created := false,
                    queue := [SdlUserEvent.create_windows] }) ∧
    handshake_done_state.windows = [] ∧
    handshake_done_state.windowCount = 0 ∧
    (sdl_create_windows handshake_done_state true 640 480).2.windows_created = true :=
  ⟨rfl, rfl, rfl, rfl⟩

/-- C4: the Frame Gate (`update_complete`) is created in the signaled state
by `sdl_client_new` (`CreateEventA(NULL, TRUE, TRUE, NULL)`), so the first
`sdl_begin_paint` after construction — abort unset, no prior frame —
returns success without blocking (the result is `some`, not the blocking
`none`), leaving the gate cleared and the invalid region reset. -/
theorem C4_frame_gate_starts_signaled :
    sdl_client_new.update_complete = true ∧
    sdl_client_new.abort = false ∧
    sdl_begin_paint sdl_client_new =
      some (true, { sdl_client_new with
                    update_complete := false,
                    gdi := { sdl_client_new.gdi with
                             invalidNull := true,
                             ninvalid := 0 } }) :=
  ⟨rfl, rfl, rfl⟩

/-- C5: every successful `sdl_begin_paint` leaves the gate cleared
(`update_complete` unsignaled) and the invalid-region tracker reset
(`invalid->null = TRUE`, `ninvalid = 0`); when the wait finishes for any
reason other than the gate being signaled (here: the abort event), the
call returns failure. -/
theorem C5_begin_paint_gate_and_reset :
    (∀ (s s2 : sdlContext), sdl_begin_paint s = some (true, s2) →
        s2.update_complete = false ∧ s2.gdi.invalidNull = true ∧ s2.gdi.ninvalid = 0) ∧
    (∀ s : sdlContext, s.update_complete = false → s.abort = true →
        sdl_begin_paint s = some (false, s)) := by
  constructor
  · intro s s2 hcall
    by_cases hg : s.update_complete = true
    · have h0 : sdl_begin_paint s =
          some (true, { s with
                        update_complete := false,
                        gdi := { s.gdi with invalidNull := true, ninvalid := 0 } }) := by
        simp [sdl_begin_paint, hg]
      rw [h0] at hcall
      injection hcall with h1
      injection h1 with ha hb
      subst hb
      simp
    · by_cases ha : s.abort = true
      · simp [sdl_begin_paint, hg, ha] at hcall
      · simp [sdl_begin_paint, hg, ha] at hcall
  · intro s h1 h2
    simp [sdl_begin_paint, h1, h2]

/-- Witness for C5: the success clause applied to the freshly constructed
session, and the failure clause applied to a session with the gate cleared
and abort signaled. -/
theorem C5_begin_paint_gate_and_reset_witness :
    ({ sdl_client_new with
       update_complete := false,
       gdi := { sdl_client_new.gdi with
                invalidNull := true,
                ninvalid := 0 } } : sdlContext).update_complete = false ∧
    sdl_begin_paint { sdl_client_new with update_complete := false, abort := true } =
      some (false, { sdl_client_new with update_complete := false, abort := true }) := by
  constructor
  · exact (C5_begin_paint_gate_and_reset.1 sdl_client_new
      { sdl_client_new with
        update_complete := false,
        gdi := { sdl_client_new.gdi with invalidNull := true, ninvalid := 0 } } rfl).1
  · exact C5_begin_paint_gate_and_reset.2
      { sdl_client_new with update_complete := false, abort := true } rfl rfl

/-- C6: every compositing pass on the UI thread signals the gate when it
finishes: `sdl_end_paint_process` always returns success with
`update_complete` signaled, and when output is suppressed, the invalid
region is null, or no rectangle is invalid, all blitting is skipped (the
emitted blit list is empty) while the gate is still signaled. -/
theorem C6_end_paint_signals_gate (s : sdlContext) :
    (sdl_end_paint_process s).1 = true ∧
    (sdl_end_paint_process s).2.1.update_complete = true ∧
    ((s.gdi.suppressOutput = true ∨ s.gdi.invalidNull = true ∨ s.gdi.ninvalid = 0) →
      (sdl_end_paint_process s).2.2 = []) := by
  unfold sdl_end_paint_process
  by_cases h1 : s.gdi.suppressOutput = true
  · simp [h1]
  · by_cases h2 : s.gdi.invalidNull = true
    · simp [h1, h2]
    · by_cases h3 : s.gdi.ninvalid < 1
      · simp [h1, h2, h3]
      · simp [h1, h2, h3]
        omega

/-- Witness for C6: a suppressed-output state with a nonempty invalid list
still skips all blitting and signals the gate. -/
theorem C6_end_paint_signals_gate_witness :
    (sdl_end_paint_process c6_state).2.1.update_complete = true ∧
    (sdl_end_paint_process c6_state).2.2 = [] := by
  have h := C6_end_paint_signals_gate c6_state
  exact ⟨h.2.1, h.2.2 (Or.inl rfl)⟩

theorem blit_loop_unscaled_eq_map (ox oy : Nat) (rects : List GdiRgn) :
    blit_loop_unscaled ox oy rects = rects.map (fun r =>
      { src := { x := r.x, y := r.y, w := r.w, h := r.h }
        dst := { x := (ox : Int) + r.x, y := (oy : Int) + r.y, w := r.w, h := r.h }
        scaled := false }) := by
  induction rects with
  | nil => rfl
  | cons r rest ih => simp [blit_loop_unscaled, ih]

/-- C7: in the unscaled (non-SmartSizing) compositing path, for every window
and each axis independently, the centering offset is
`(windowSize - framebufferSize) / 2` with floor division when the window is
strictly larger than the framebuffer on that axis and `0` otherwise, and
every invalid source rectangle is copied unscaled to the source rectangle
translated by that offset; the second conjunct ties the per-window path to
`sdl_end_paint_process`. -/
theorem C7_unscaled_centering :
    (∀ (gdi : GdiState) (rects : List GdiRgn) (win : sdl_window_t),
      (sdl_process_window gdi false rects win).1.offset_x =
        (if gdi.width < win.width then (win.width - gdi.width) / 2 else 0) ∧
      (sdl_process_window gdi false rects win).1.offset_y =
        (if gdi.height < win.height then (win.height - gdi.height) / 2 else 0) ∧
      (sdl_process_window gdi false rects win).2 =
        rects.map (fun r =>
          { src := { x := r.x, y := r.y, w := r.w, h := r.h }
            dst := { x := ((sdl_process_window gdi false rects win).1.offset_x : Int) + r.x
                     y := ((sdl_process_window gdi false rects win).1.offset_y : Int) + r.y
                     w := r.w, h := r.h }
            scaled := false })) ∧
    (∀ s : sdlContext, s.smartSizing = false → s.gdi.suppressOutput = false →
      s.gdi.invalidNull = false → 1 ≤ s.gdi.ninvalid →
      (sdl_end_paint_process s).2.1.windows =
        s.windows.map (fun w =>
          (sdl_process_window s.gdi false (s.gdi.cinvalid.take s.gdi.ninvalid) w).1) ∧
      (sdl_end_paint_process s).2.2 =
        (s.windows.map (fun w =>
          (sdl_process_window s.gdi false (s.gdi.cinvalid.take s.gdi.ninvalid) w).2)).flatten) := by
  constructor
  · intro gdi rects win
    refine ⟨?_, ?_, ?_⟩
    · simp [sdl_process_window]
    · simp [sdl_process_window]
    · simp [sdl_process_window, blit_loop_unscaled_eq_map]
  · intro s hsm hsup hnull hn
    have hlt : ¬ s.gdi.ninvalid < 1 := by omega
    unfold sdl_end_paint_process
    simp [hsup, hnull, hlt, hsm, List.map_map, Function.comp_def]

/-- Witness for C7: a 100 by 80 framebuffer inside a 120 by 90 window gives
centering offsets (10, 5) and the single invalid rectangle is translated
by them. -/
theorem C7_unscaled_centering_witness :
    (sdl_process_window c7_gdi false [{ x := 10, y := 20, w := 5, h := 6 }]
      c7_win).1.offset_x = 10 ∧
    (sdl_end_paint_process c7_state).2.2 =
      [{ src := { x := 10, y := 20, w := 5, h := 6 }
         dst := { x := 20, y := 25, w := 5, h := 6 }
         scaled := false }] := by
  have h1 := (C7_unscaled_centering.1 c7_gdi
    [{ x := 10, y := 20, w := 5, h := 6 }] c7_win).1
  have h2 := (C7_unscaled_centering.2 c7_state rfl rfl rfl (by decide)).2
  constructor
  · rw [h1]; decide
  · rw [h2]; decide

/-- C8: when authentication-only mode is configured and no password is set,
`sdl_pre_connect` fails immediately: the result is exactly a failure record
with no handshake wait performed, the session state unchanged except the
unconditional `highDpi = TRUE`, and the settings unchanged except the
unconditional OS identifiers — in particular no window was created, no
event was signaled, and nothing was enqueued. -/
theorem C8_auth_only_no_password (settings : rdpSettings) (s : sdlContext)
    (mon : MonitorOracle) (hauth : settings.authenticationOnly = true)
    (hpw : settings.password = none) :
    sdl_pre_connect settings s mon =
      some { ok := false,
             settings := { settings with
                           osMajorType := OSMAJORTYPE_UNIX,
                           osMinorType := OSMINORTYPE_NATIVE_SDL },
             sdl := { s with highDpi := true },
             waited_for_init := false } := by
  simp [sdl_pre_connect, hauth, hpw]

/-- Witness for C8: a concrete auth-only configuration without password
against the freshly constructed session. -/
theorem C8_auth_only_no_password_witness :
    sdl_pre_connect c8_settings sdl_client_new
      { detectOk := true, maxWidth := 0, maxHeight := 0 } =
      some { ok := false,
             settings := { c8_settings with
                           osMajorType := OSMAJORTYPE_UNIX,
                           osMinorType := OSMINORTYPE_NATIVE_SDL },
             sdl := { sdl_client_new with highDpi := true },
             waited_for_init := false } :=
  C8_auth_only_no_password c8_settings sdl_client_new
    { detectOk := true, maxWidth := 0, maxHeight := 0 } rfl rfl

theorem lt_div_succ_mul (a k : Nat) (hk : 0 < k) : a < (a / k + 1) * k := by
  have h1 := Nat.div_add_mod a k
  have h2 := Nat.mod_lt a hk
  calc a = k * (a / k) + a % k := h1.symm
    _ < k * (a / k) + k := Nat.add_lt_add_left h2 _
    _ = (a / k + 1) * k := by ring

/-- C9: the claim as frozen is false on the spec-modelled scaler.  With a
window of width 100 and a framebuffer of width 300 (downscaling by 3), the
framebuffer coordinate 2 maps forward to 0 and back to 0, differing from 2
by more than 1 unit. -/
theorem C9_scale_roundtrip_counterexample :
    sdl_scale_coordinate 100 300 true (sdl_scale_coordinate 100 300 false 2) = 0 ∧
    2 - sdl_scale_coordinate 100 300 true (sdl_scale_coordinate 100 300 false 2) > 1 := by
  decide

/-- C9 (amended): the round trip of the Coordinate Scaler is within 1 unit
per axis whenever the window is at least as large as the framebuffer on
that axis (`F ≤ W`); for strict downscaling the error can reach the
downscale factor, as the counterexample shows. -/
theorem C9_scale_roundtrip (W F v : Nat) (hW : 0 < W) (hF : 0 < F) (hFW : F ≤ W) :
    sdl_scale_coordinate W F true (sdl_scale_coordinate W F false v) ≤ v ∧
    v ≤ sdl_scale_coordinate W F true (sdl_scale_coordinate W F false v) + 1 := by
  have hgoal1 : v * W / F * F / W ≤ v := by
    have hstep : v * W / F * F ≤ v * W := Nat.div_mul_le_self _ _
    have h2 : v * W / F * F / W ≤ v * W / W := Nat.div_le_div_right hstep
    have h3 : v * W / W = v := by
      rw [Nat.mul_comm, Nat.mul_div_cancel_left v hW]
    rw [h3] at h2
    exact h2
  have hgoal2 : v ≤ v * W / F * F / W + 1 := by
    have h1 : v * W < (v * W / F + 1) * F := lt_div_succ_mul (v * W) F hF
    have h2 : v * W / F * F < (v * W / F * F / W + 1) * W :=
      lt_div_succ_mul (v * W / F * F) W hW
    have h3 : v * W < (v * W / F * F / W + 2) * W := by
      have e1 : (v * W / F + 1) * F = v * W / F * F + F := by ring
      have e2 : (v * W / F * F / W + 2) * W = (v * W / F * F / W + 1) * W + W := by ring
      calc v * W < v * W / F * F + F := by rw [e1] at h1; exact h1
        _ ≤ v * W / F * F + W := Nat.add_le_add_left hFW _
        _ < (v * W / F * F / W + 1) * W + W := Nat.add_lt_add_right h2 _
        _ = (v * W / F * F / W + 2) * W := e2.symm
    have h4 : v < v * W / F * F / W + 2 := lt_of_mul_lt_mul_right h3 (Nat.zero_le W)
    omega
  exact ⟨hgoal1, hgoal2⟩

/-- Witness for C9: upscaling a 100-wide framebuffer into a 200-wide window,
the coordinate 33 round-trips exactly. -/
theorem C9_scale_roundtrip_witness :
    sdl_scale_coordinate 200 100 true (sdl_scale_coordinate 200 100 false 33) ≤ 33 ∧
    33 ≤ sdl_scale_coordinate 200 100 true (sdl_scale_coordinate 200 100 false 33) + 1 :=
  C9_scale_roundtrip 200 100 33 (by decide) (by decide) (by decide)

theorem enqueue_from_ok_iff (mk : Nat → SdlUserEvent) (pushOk : Nat → Bool) :
    ∀ (n x : Nat), (enqueue_from mk pushOk x n).1 = true ↔
      ∀ j, j < n → pushOk (x + j) = true := by
  intro n
  induction n with
  | zero => intro x; simp [enqueue_from]
  | succ m ih =>
    intro x
    by_cases hp : pushOk x = true
    · constructor
      · intro hok j hj
        cases j with
        | zero => simpa using hp
        | succ k =>
          have hrest : (enqueue_from mk pushOk (x + 1) m).1 = true := by
            simpa [enqueue_from, hp] using hok
          have h2 := (ih (x + 1)).mp hrest k (Nat.lt_of_succ_lt_succ hj)
          have hx : x + 1 + k = x + (k + 1) := by omega
          rwa [hx] at h2
      · intro hall
        have hrest : (enqueue_from mk pushOk (x + 1) m).1 = true :=
          (ih (x + 1)).mpr (fun j hj => by
            have h2 := hall (j + 1) (Nat.succ_lt_succ hj)
            have hx : x + (j + 1) = x + 1 + j := by omega
            rwa [hx] at h2)
        simp [enqueue_from, hp, hrest]
    · have hp2 : pushOk x = false := by simpa using hp
      constructor
      · intro hok
        exact absurd hok (by simp [enqueue_from, hp2])
      · intro hall
        have h0 := hall 0 (Nat.succ_pos m)
        rw [Nat.add_zero] at h0
        exact absurd h0 (by simp [hp2])

/-- C10: `update_resizeable` and `update_fullscreen` are atomic with respect
to the session flags: the function succeeds exactly when the per-window
enqueue succeeded for every window; on success the flag is set to the
computed value (`(dyn AND enable) OR smart`, respectively `enter`); on any
enqueue failure the function returns failure and the flag keeps its
previous value. -/
theorem C10_update_flags_atomic :
    (∀ (settings : rdpSettings) (s : sdlContext) (enable : Bool) (pushOk : Nat → Bool),
      ((update_resizeable settings s enable pushOk).1 = true ↔
        ∀ x, x < s.windowCount → pushOk x = true) ∧
      ((update_resizeable settings s enable pushOk).1 = true →
        (update_resizeable settings s enable pushOk).2.resizeable =
          ((settings.dynamicResolutionUpdate && enable) || settings.smartSizing)) ∧
      ((update_resizeable settings s enable pushOk).1 = false →
        (update_resizeable settings s enable pushOk).2.resizeable = s.resizeable)) ∧
    (∀ (s : sdlContext) (enter : Bool) (pushOk : Nat → Bool),
      ((update_fullscreen s enter pushOk).1 = true ↔
        ∀ x, x < s.windowCount → pushOk x = true) ∧
      ((update_fullscreen s enter pushOk).1 = true →
        (update_fullscreen s enter pushOk).2.fullscreen = enter) ∧
      ((update_fullscreen s enter pushOk).1 = false →
        (update_fullscreen s enter pushOk).2.fullscreen = s.fullscreen)) := by
  constructor
  · intro settings s enable pushOk
    have hmain : (enqueue_from (fun x => SdlUserEvent.window_resizeable x
        ((settings.dynamicResolutionUpdate && enable) || settings.smartSizing))
        pushOk 0 s.windowCount).1 = true ↔
        ∀ j, j < s.windowCount → pushOk j = true := by
      simpa using enqueue_from_ok_iff
        (fun x => SdlUserEvent.window_resizeable x
          ((settings.dynamicResolutionUpdate && enable) || settings.smartSizing))
        pushOk s.windowCount 0
    cases hok : (enqueue_from (fun x => SdlUserEvent.window_resizeable x
        ((settings.dynamicResolutionUpdate && enable) || settings.smartSizing))
        pushOk 0 s.windowCount).1 with
    | true =>
      have hall := hmain.mp hok
      have hfst : (update_resizeable settings s enable pushOk).1 = true := by
        simp [update_resizeable, hok]
      refine ⟨iff_of_true hfst hall, ?_, ?_⟩
      · intro _; simp [update_resizeable, hok]
      · intro hfalse
        rw [hfst] at hfalse
        exact absurd hfalse (by simp)
    | false =>
      have hnot : ¬ (∀ j, j < s.windowCount → pushOk j = true) := by
        intro hall
        have h1 := hmain.mpr hall
        rw [hok] at h1
        exact Bool.noConfusion h1
      have hfst : (update_resizeable settings s enable pushOk).1 = false := by
        simp [update_resizeable, hok]
      refine ⟨iff_of_false (by simp [hfst]) hnot, ?_, ?_⟩
      · intro htrue
        rw [hfst] at htrue
        exact absurd htrue (by simp)
      · intro _; simp [update_resizeable, hok]
  · intro s enter pushOk
    have hmain : (enqueue_from (fun x => SdlUserEvent.window_fullscreen x enter)
        pushOk 0 s.windowCount).1 = true ↔
        ∀ j, j < s.windowCount → pushOk j = true := by
      simpa using enqueue_from_ok_iff
        (fun x => SdlUserEvent.window_fullscreen x enter) pushOk s.windowCount 0
    cases hok : (enqueue_from (fun x => SdlUserEvent.window_fullscreen x enter)
        pushOk 0 s.windowCount).1 with
    | true =>
      have hall := hmain.mp hok
      have hfst : (update_fullscreen s enter pushOk).1 = true := by
        simp [update_fullscreen, hok]
      refine ⟨iff_of_true hfst hall, ?_, ?_⟩
      · intro _; simp [update_fullscreen, hok]
      · intro hfalse
        rw [hfst] at hfalse
        exact absurd hfalse (by simp)
    | false =>
      have hnot : ¬ (∀ j, j < s.windowCount → pushOk j = true) := by
        intro hall
        have h1 := hmain.mpr hall
        rw [hok] at h1
        exact Bool.noConfusion h1
      have hfst : (update_fullscreen s enter pushOk).1 = false := by
        simp [update_fullscreen, hok]
      refine ⟨iff_of_false (by simp [hfst]) hnot, ?_, ?_⟩
      · intro htrue
        rw [hfst] at htrue
        exact absurd htrue (by simp)
      · intro _; simp [update_fullscreen, hok]

/-- Witness for C10: with two windows and every push succeeding,
`update_resizeable` sets the flag (dynamic-resolution enabled); with one
push failing, `update_fullscreen` fails and keeps the flag. -/
theorem C10_update_flags_atomic_witness :
    (update_resizeable c10_settings c10_state true (fun _ => true)).2.resizeable = true ∧
    (update_fullscreen c10_state true (fun _ => false)).2.fullscreen = false := by
  have h1 := (C10_update_flags_atomic.1 c10_settings c10_state true (fun _ => true)).2.1
  have h2 := (C10_update_flags_atomic.2 c10_state true (fun _ => false)).2.2
  constructor
  · have hres := h1 (by decide)
    rw [hres]
    decide
  · have hres := h2 (by decide)
    rw [hres]
    decide

